import Mathlib

/-
  Verification development for the MiLO middleware core.

  Shallow embedding of the C++ sources:
  - include/core/ParameterStore.hpp   (Parameter enum, ParameterStore)
  - include/core/RPCManager.hpp       (Device enum, RPCManager declaration)
  - src/core/RPCManager.cpp           (connect, sendCommand)
  - src/core/ErrorMonitor.cpp         (notifyFailure stub)
  - SerialChannel.cpp                 (writeLine, readLine)
  - SystemCoordinator.hpp             (State enum)
  - Command.hpp, two revisions        (toWire)

  Byte sequences on the wire are modelled as List Char; C++ float parameter
  values are modelled as exact rationals (only storage and retrieval of the
  values matter to the properties below, no float arithmetic is performed).
-/

set_option autoImplicit false

namespace Milo

/-- Parameter keys, from the Parameter enum in include/core/ParameterStore.hpp
(constructors Temp, FlowRate, Voltage; the comment in the header defers the
full list to a later ParameterStore.cpp which does not exist in the tree). -/
inductive Parameter
  | Temp
  | FlowRate
  | Voltage

deriving instance DecidableEq, Repr for Parameter

/-- Model of the C++ float carried by the store; exact rationals, since the
properties below only move values in and out of the map. -/
abbrev ParamValue := Rat

/-- ParameterStore from include/core/ParameterStore.hpp: a map from Parameter
to a float value.  The header declares void set and a get that, per its doc
comment, returns 0 when the key is missing; no bounds and no error path are
declared anywhere in the class. -/
structure ParameterStore where
  values : Parameter → Option ParamValue

/-- The freshly constructed store: the unordered map values_ starts empty. -/
def ParameterStore.empty : ParameterStore := ⟨fun _ => none⟩

/-- ParameterStore set, per the header contract: atomically writes value under
key p, unconditionally; the return type is void, so there is no error return
and no validation. -/
def ParameterStore.set (s : ParameterStore) (p : Parameter) (v : ParamValue) :
    ParameterStore :=
  ⟨fun q => if q = p then some v else s.values q⟩

/-- ParameterStore get, per the header contract: thread-safe getter that
returns 0 f if the key is missing. -/
def ParameterStore.get (s : ParameterStore) (p : Parameter) : ParamValue :=
  (s.values p).getD 0

namespace SystemCoordinator

/-- State enum of SystemCoordinator (SystemCoordinator.hpp, private section):
exactly the six constructors that appear in the source. -/
inductive State
  | BOOT
  | INIT
  | IDLE
  | RUNNING
  | FINISHED
  | ERROR

end SystemCoordinator

deriving instance DecidableEq, Fintype, Repr for SystemCoordinator.State

/-- Observable state of the ErrorMonitor: the de-dupe list seen_ declared in
ErrorMonitor.hpp, and the list of messages that have been handed to the
registered escalation callback. -/
structure ErrorMonitorState where
  seen : List String
  escalated : List String

deriving instance DecidableEq, Repr for ErrorMonitorState

/-- ErrorMonitor notifyFailure as implemented in src/core/ErrorMonitor.cpp:
the body is empty (the file calls itself a stub so linking works in tests),
so the monitor state is returned unchanged and the escalation callback is
never invoked. -/
def ErrorMonitor.notifyFailure (s : ErrorMonitorState) (_msg : String) :
    ErrorMonitorState :=
  s

/-- Device enum from include/core/RPCManager.hpp (PG, PSU, Pump). -/
inductive Device
  | PG
  | PSU
  | Pump

deriving instance DecidableEq, Repr for Device

/-- The toString helper of include/core/RPCManager.hpp. -/
def Device.toString : Device → String
  | Device.PG => "PG"
  | Device.PSU => "PSU"
  | Device.Pump => "Pump"

def psuPath : String := "/dev/psu1"

def pgPath : String := "/dev/pg1"

def pumpPath : String := "/dev/pump1"

/-- The symlinks_ array of include/core/RPCManager.hpp, in declaration order:
PSU, PG, Pump. -/
def symlinks : List (Device × String) :=
  [(Device.PSU, psuPath), (Device.PG, pgPath), (Device.Pump, pumpPath)]

/-- The data members of RPCManager that connect and sendCommand touch: the
set of devices present in the channels_ map (each held channel was opened
successfully) and the connected_ flag. -/
structure RPCState where
  channels : List Device
  connected : Bool

deriving instance DecidableEq, Repr for RPCState

/-- A freshly constructed RPCManager: empty channel map, connected_ false. -/
def rpc0 : RPCState := ⟨[], false⟩

/-- Result of one call to RPCManager connect: the resulting data members, the
message of the thrown runtime_error if any, and the messages passed to
errorMonitor_ notifyFailure during the call. -/
structure ConnectOutcome where
  state : RPCState
  error : Option String
  notified : List String

deriving instance DecidableEq, Repr for ConnectOutcome

/-- The error message built in RPCManager connect when open fails. -/
def openFailMsg (d : Device) : String :=
  "[RPCManager] serial device: " ++ Device.toString d ++ " open failed"

/-- The loop body of RPCManager connect (src/core/RPCManager.cpp): walk
symlinks_ in order; open each path (the environment env says whether open
succeeds); on success emplace the device into the channel map and continue;
on failure notify the error monitor and throw, leaving the channels emplaced
so far in the map and connected_ false. -/
def connectLoop (env : String → Bool) (acc : List Device) :
    List (Device × String) → ConnectOutcome
  | [] => ⟨⟨acc, true⟩, none, []⟩
  | (dev, path) :: rest =>
    if env path then connectLoop env (acc ++ [dev]) rest
    else ⟨⟨acc, false⟩, some (openFailMsg dev), [openFailMsg dev]⟩

/-- RPCManager connect (src/core/RPCManager.cpp): early-return when already
connected, otherwise clear the channel map and run the open loop. -/
def RPCManager.connect (env : String → Bool) (s : RPCState) : ConnectOutcome :=
  if s.connected then ⟨s, none, []⟩
  else connectLoop env [] symlinks

/-- Iterated connect calls: apply connect n times, keeping the state of each
outcome (a thrown error leaves the recorded members as they are). -/
def connectIter (env : String → Bool) : Nat → RPCState → RPCState
  | 0, s => s
  | n + 1, s => connectIter env n (RPCManager.connect env s).state

/-- Command from Command.hpp: a value object carrying a payload string. -/
structure Command where
  payload : List Char

deriving instance DecidableEq, Repr for Command

/-- The CR-LF line terminator of the wire protocol. -/
def crlf : List Char := ['\r', '\n']

/-- Command toWire as found in the Command.hpp revision that returns
payload + CR-LF. -/
def Command.toWire (c : Command) : List Char := c.payload ++ crlf

/-- Command toWire as found in the Command.hpp revision that returns the raw
payload unchanged. -/
def Command.toWireRaw (c : Command) : List Char := c.payload

/-- The ends_with CR-LF test used by SerialChannel writeLine. -/
def endsWithCRLF (l : List Char) : Bool := crlf.isSuffixOf l

/-- SerialChannel writeLine (SerialChannel.cpp): the byte sequence the POSIX
write loop puts on the wire for an open channel — the line itself when it
already ends with CR-LF, otherwise the line with CR-LF appended. -/
def SerialChannel.writeLine (line : List Char) : List Char :=
  if endsWithCRLF line then line else line ++ crlf

/-- Locate the first CR-LF in a byte buffer, exactly as rx_buffer_.find
followed by substr and erase do in SerialChannel readLine: on success,
return the bytes before the first CR-LF and the bytes after it. -/
def splitCRLF : List Char → Option (List Char × List Char)
  | [] => none
  | c :: rest =>
    if c = '\r' ∧ rest.head? = some '\n' then some ([], rest.tail)
    else
      match splitCRLF rest with
      | some (a, b) => some (c :: a, b)
      | none => none

/-- SerialChannel readLine (SerialChannel.cpp): buf is the rx_buffer_ carried
across calls, chunks are the successive byte chunks that ::read delivers
before the deadline.  The loop polls; when a chunk arrives it is appended to
the buffer and only then is the buffer searched for a complete CR-LF
terminated line; when no further chunk arrives the call times out returning
none and keeping the buffer.  The result is the returned line, if any, and
the rx_buffer_ contents after the call. -/
def SerialChannel.readLine (buf : List Char) :
    List (List Char) → Option (List Char) × List Char
  | [] => (none, buf)
  | chunk :: rest =>
    match splitCRLF (buf ++ chunk) with
    | some (line, remains) => (some line, remains)
    | none => SerialChannel.readLine (buf ++ chunk) rest

/-- Possible outcomes of RPCManager sendCommand (src/core/RPCManager.cpp). -/
inductive SendResult
  | notConnected
  | unknownDevice
  | assertFail
  | writeFail (msg : String)
  | sent (frame : List Char)

deriving instance DecidableEq, Repr for SendResult

/-- The error message built in RPCManager sendCommand when writeLine fails. -/
def writeFailMsg (d : Device) : String :=
  "[RPCManager] failed to write to serial device: " ++ Device.toString d

/-- RPCManager sendCommand (src/core/RPCManager.cpp): throw when not
connected; throw when the device has no channel; serialize with toWire
(tw parametrises over the two Command.hpp revisions); assert the serialized
size is at most 256; write the CR-LF framed line to the channel (writeOk
says whether the POSIX write succeeds), throwing on write failure.  The
returned pair is the RPCManager state after the call and the outcome; the
trailing TODO in the source records no in-flight entry, so the state is
returned unchanged on every path. -/
def RPCManager.sendCommand (s : RPCState) (writeOk : Device → Bool)
    (tw : Command → List Char) (dev : Device) (cmd : Command) :
    RPCState × SendResult :=
  if s.connected = false then (s, SendResult.notConnected)
  else if dev ∉ s.channels then (s, SendResult.unknownDevice)
  else if 256 < (tw cmd).length then (s, SendResult.assertFail)
  else if writeOk dev = false then (s, SendResult.writeFail (writeFailMsg dev))
  else (s, SendResult.sent (SerialChannel.writeLine (tw cmd)))

/-! Theorems.  Each claim of the specification is settled against the
embedding above. -/

/-- C9: a ParameterStore write followed by a read of the same key returns the
written value.  In the source, set is void and stores unconditionally, so
every set call succeeds, and the sequential embedding of the mutex-guarded
map gives the next get the new value. -/
theorem C9_set_then_get (s : ParameterStore) (k : Parameter) (v : ParamValue) :
    (s.set k v).get k = v := by
  simp [ParameterStore.get, ParameterStore.set]

/-- C1 counterexample: the store performs no bounds validation.  set has no
error return and stores any value, so a set of 1000001 volts succeeds and the
following get yields 1000001, which lies outside any declared bound for the
key (the code declares none; 1000000 stands for an arbitrary candidate upper
bound). -/
theorem C1_counterexample :
    (ParameterStore.empty.set Parameter.Voltage 1000001).get Parameter.Voltage
      = 1000001 ∧ ¬ ((1000001 : ParamValue) ≤ 1000000) := by
  constructor
  · simp [ParameterStore.get, ParameterStore.set, ParameterStore.empty]
  · norm_num

/-- C1 amended: set stores unconditionally (void return, no validation, no
OutOfRange path) and get returns the last stored value, with 0 for a key
never set; no bound on stored values exists. -/
theorem C1_amended (s : ParameterStore) (k : Parameter) (v : ParamValue) :
    (s.set k v).get k = v ∧ ParameterStore.empty.get k = 0 := by
  constructor
  · simp [ParameterStore.get, ParameterStore.set]
  · simp [ParameterStore.get, ParameterStore.empty]

/-- C3 counterexample: the coordinator FSM enum has six states, not seven. -/
theorem C3_counterexample :
    Fintype.card SystemCoordinator.State = 6 ∧ (6 : Nat) ≠ 7 := by
  constructor
  · decide
  · decide

/-- C3 amended: the coordinator FSM has exactly the six states BOOT, INIT,
IDLE, RUNNING, FINISHED, ERROR; no Aborting state exists, so the path
Running to Aborting to Idle is not representable. -/
theorem C3_amended :
    Fintype.card SystemCoordinator.State = 6 ∧
      ∀ s : SystemCoordinator.State,
        s = SystemCoordinator.State.BOOT ∨ s = SystemCoordinator.State.INIT ∨
        s = SystemCoordinator.State.IDLE ∨ s = SystemCoordinator.State.RUNNING ∨
        s = SystemCoordinator.State.FINISHED ∨ s = SystemCoordinator.State.ERROR := by
  constructor
  · decide
  · intro s
    cases s <;> simp

/-- C6: the shipped notifyFailure body is empty, so a fault reported to a
fresh monitor is neither recorded nor handed to the escalation callback —
contradicting the documented contract of ErrorMonitor.hpp. -/
theorem C6_code_bug :
    (ErrorMonitor.notifyFailure ⟨[], []⟩ (openFailMsg Device.PSU)).escalated = []
      ∧ (ErrorMonitor.notifyFailure ⟨[], []⟩ (openFailMsg Device.PSU)).seen = [] :=
  ⟨rfl, rfl⟩

/-- When the manager is already connected, connect returns at once: no open,
no error, no notification, members untouched. -/
theorem connect_of_connected (env : String → Bool) (s : RPCState)
    (h : s.connected = true) : RPCManager.connect env s = ⟨s, none, []⟩ := by
  simp [RPCManager.connect, h]

/-- If the open loop raised no error, it ended by setting connected_. -/
theorem connectLoop_error_none_connected (env : String → Bool) :
    ∀ (l : List (Device × String)) (acc : List Device),
      (connectLoop env acc l).error = none →
        (connectLoop env acc l).state.connected = true := by
  intro l
  induction l with
  | nil => intro acc _; simp [connectLoop]
  | cons p rest ih =>
    intro acc h
    obtain ⟨dev, path⟩ := p
    by_cases he : env path
    · simpa [connectLoop, he] using ih (acc ++ [dev]) (by simpa [connectLoop, he] using h)
    · simp [connectLoop, he] at h

/-- A connect call that raised no error leaves the manager connected. -/
theorem connect_error_none_connected (env : String → Bool) (s : RPCState)
    (h : (RPCManager.connect env s).error = none) :
    (RPCManager.connect env s).state.connected = true := by
  by_cases hc : s.connected = true
  · simp [RPCManager.connect, hc]
  · have hc0 : s.connected = false := by simpa using hc
    simp only [RPCManager.connect, hc0, Bool.false_eq_true, if_false] at h ⊢
    exact connectLoop_error_none_connected env symlinks [] h

/-- Iterating connect on a connected manager changes nothing. -/
theorem connectIter_of_connected (env : String → Bool) :
    ∀ (n : Nat) (s : RPCState), s.connected = true → connectIter env n s = s := by
  intro n
  induction n with
  | zero => intro s _; rfl
  | succ n ih =>
    intro s h
    show connectIter env n (RPCManager.connect env s).state = s
    rw [connect_of_connected env s h]
    exact ih s h

/-- C5: after a connect call that succeeded (raised no error), every further
connect call is a no-op — it opens nothing, notifies nothing, raises nothing
and leaves the channel map and connected_ unchanged — and N further calls
leave the same state as the single successful one. -/
theorem C5_connect_idempotent (env0 env : String → Bool) (s : RPCState)
    (n : Nat) (h : (RPCManager.connect env0 s).error = none) :
    RPCManager.connect env (RPCManager.connect env0 s).state
        = ⟨(RPCManager.connect env0 s).state, none, []⟩ ∧
      connectIter env n (RPCManager.connect env0 s).state
        = (RPCManager.connect env0 s).state := by
  have hs : (RPCManager.connect env0 s).state.connected = true :=
    connect_error_none_connected env0 s h
  exact ⟨connect_of_connected env _ hs, connectIter_of_connected env n _ hs⟩

/-- Environment in which every serial device opens successfully. -/
def envAllOk : String → Bool := fun _ => true

/-- C5 witness: a concrete first connect on a fresh manager with all three
devices present succeeds, and three further connect calls are no-ops. -/
theorem C5_witness :
    (RPCManager.connect envAllOk rpc0).error = none ∧
      (RPCManager.connect envAllOk (RPCManager.connect envAllOk rpc0).state
          = ⟨(RPCManager.connect envAllOk rpc0).state, none, []⟩ ∧
        connectIter envAllOk 3 (RPCManager.connect envAllOk rpc0).state
          = (RPCManager.connect envAllOk rpc0).state) :=
  ⟨rfl, C5_connect_idempotent envAllOk envAllOk rpc0 3 rfl⟩

/-- Environment in which only the PSU serial device opens successfully. -/
def envPsuOnly : String → Bool := fun p => p == psuPath

/-- C4 counterexample: connect on a fresh manager where PSU opens and PG
fails raises the error naming PG, yet the already-opened PSU channel is NOT
closed — it stays in the channel map after the call. -/
theorem C4_counterexample :
    (RPCManager.connect envPsuOnly rpc0).state.channels ≠ [] ∧
      (RPCManager.connect envPsuOnly rpc0).error
        = some (openFailMsg Device.PG) := by
  constructor
  · decide
  · decide

/-- If every device of a prefix of the symlink walk opens and the next one
fails, the loop stops there: the devices of the prefix are the ones emplaced
in the channel map, the error and the single notification name the failing
device, and connected_ is left false. -/
theorem connectLoop_first_fail (env : String → Bool) :
    ∀ (pre : List (Device × String)) (acc : List Device) (dev : Device)
      (path : String) (post : List (Device × String)),
      (∀ q ∈ pre, env q.2 = true) → env path = false →
        connectLoop env acc (pre ++ (dev, path) :: post)
          = ⟨⟨acc ++ pre.map Prod.fst, false⟩, some (openFailMsg dev),
              [openFailMsg dev]⟩ := by
  intro pre
  induction pre with
  | nil =>
    intro acc dev path post _ hfail
    simp [connectLoop, hfail]
  | cons q rest ih =>
    intro acc dev path post hpre hfail
    obtain ⟨qd, qp⟩ := q
    have hq : env qp = true := hpre (qd, qp) (by simp)
    simp only [List.cons_append, connectLoop, hq, if_true, List.append_eq]
    rw [ih (acc ++ [qd]) dev path post
      (fun r hr => hpre r (List.mem_cons_of_mem _ hr)) hfail]
    simp

/-- C4 amended: whenever connect runs on a not-yet-connected manager and some
device is the first in the symlink walk whose open fails (every earlier one
opened), the call raises an error naming that failing device and notifies
the error monitor with the same message, and the manager stays
not-connected; but the channels opened earlier in the call are NOT closed —
their devices remain in the channel map (cleared only by a later connect or
by destruction). -/
theorem C4_amended (env : String → Bool) (s : RPCState)
    (pre : List (Device × String)) (dev : Device) (path : String)
    (post : List (Device × String))
    (h1 : s.connected = false)
    (hsym : symlinks = pre ++ (dev, path) :: post)
    (hpre : ∀ q ∈ pre, env q.2 = true)
    (hfail : env path = false) :
    (RPCManager.connect env s).state.channels = pre.map Prod.fst ∧
      (RPCManager.connect env s).error = some (openFailMsg dev) ∧
      (RPCManager.connect env s).state.connected = false ∧
      (RPCManager.connect env s).notified = [openFailMsg dev] := by
  simp only [RPCManager.connect, h1, Bool.false_eq_true, if_false]
  rw [hsym, connectLoop_first_fail env pre [] dev path post hpre hfail]
  simp

/-- C4 witness: the amended statement instantiated at the concrete
environment where only PSU opens, on a fresh manager: PSU is the opened
prefix, PG the first failing device. -/
theorem C4_witness :
    rpc0.connected = false ∧ envPsuOnly psuPath = true ∧
      envPsuOnly pgPath = false ∧
      ((RPCManager.connect envPsuOnly rpc0).state.channels
          = ([(Device.PSU, psuPath)] : List (Device × String)).map Prod.fst ∧
        (RPCManager.connect envPsuOnly rpc0).error
          = some (openFailMsg Device.PG) ∧
        (RPCManager.connect envPsuOnly rpc0).state.connected = false ∧
        (RPCManager.connect envPsuOnly rpc0).notified
          = [openFailMsg Device.PG]) :=
  ⟨rfl, by decide, by decide,
    C4_amended envPsuOnly rpc0 [(Device.PSU, psuPath)] Device.PG pgPath
      [(Device.Pump, pumpPath)] rfl rfl
      (by
        intro q hq
        simp only [List.mem_singleton] at hq
        subst hq
        decide)
      (by decide)⟩

/-- A line that already ends in CR-LF is recognised as such. -/
theorem endsWithCRLF_append (l : List Char) : endsWithCRLF (l ++ crlf) = true := by
  rw [endsWithCRLF, List.isSuffixOf_iff_suffix]
  exact List.suffix_append l crlf

/-- A line with no newline byte at all does not end in CR-LF. -/
theorem endsWithCRLF_eq_false (l : List Char) (h : '\n' ∉ l) :
    endsWithCRLF l = false := by
  rw [Bool.eq_false_iff]
  intro hc
  rw [endsWithCRLF, List.isSuffixOf_iff_suffix] at hc
  exact h (hc.subset (by simp [crlf]))

/-- splitCRLF is exact: a successful split reconstructs the buffer as the
line, the CR-LF terminator, and the remainder — so readLine consumes exactly
the line and its terminator. -/
theorem splitCRLF_sound :
    ∀ (l line rest : List Char), splitCRLF l = some (line, rest) →
      l = line ++ (crlf ++ rest) := by
  intro l
  induction l with
  | nil => intro line rest h; simp [splitCRLF] at h
  | cons c t ih =>
    intro line rest h
    rw [splitCRLF] at h
    split at h
    · rename_i hcond
      obtain ⟨hc, hh⟩ := hcond
      simp only [Option.some.injEq, Prod.mk.injEq] at h
      obtain ⟨h1, h2⟩ := h
      subst h1
      subst h2
      cases t with
      | nil => simp at hh
      | cons t0 tt =>
        simp only [List.head?] at hh
        have ht0 : t0 = '\n' := by injection hh
        subst hc
        subst ht0
        simp [crlf]
    · split at h
      · rename_i a b heq
        simp only [Option.some.injEq, Prod.mk.injEq] at h
        obtain ⟨h1, h2⟩ := h
        subst h1
        subst h2
        have ht := ih a b heq
        rw [ht]
        simp
      · exact absurd h (by simp)

/-- An rx buffer that already holds one complete line before the call. -/
def bufOK : List Char := ['O', 'K', '\r', '\n']

/-- C7 counterexample: the buffer holds the complete line OK terminated by
CR-LF, yet a readLine call during which no new bytes arrive returns nothing
and leaves the buffer untouched — the line is found only after a read
appends fresh bytes, so a fully buffered line is not returned on its own. -/
theorem C7_counterexample :
    SerialChannel.readLine bufOK [] = (none, bufOK) ∧
      splitCRLF bufOK = some (['O', 'K'], []) :=
  ⟨rfl, by decide⟩

/-- C7 amended: if appending the first arriving chunk to the buffer yields a
complete CR-LF terminated line, readLine returns that line with the
terminator stripped and consumes exactly the line and terminator (the bytes
after it stay buffered); but when no chunk arrives before the timeout the
call returns nothing and keeps the buffer, even if the buffer already holds
a complete line. -/
theorem C7_amended (buf chunk : List Char) (chunks : List (List Char))
    (line remains : List Char)
    (h : splitCRLF (buf ++ chunk) = some (line, remains)) :
    SerialChannel.readLine buf (chunk :: chunks) = (some line, remains) ∧
      buf ++ chunk = line ++ (crlf ++ remains) ∧
      SerialChannel.readLine buf [] = (none, buf) := by
  refine ⟨?_, splitCRLF_sound _ _ _ h, rfl⟩
  simp [SerialChannel.readLine, h]

/-- C7 witness: buffer holding O, a chunk completing the line OK arrives. -/
theorem C7_witness :
    splitCRLF (['O'] ++ ['K', '\r', '\n']) = some (['O', 'K'], []) ∧
      (SerialChannel.readLine ['O'] [['K', '\r', '\n']] = (some ['O', 'K'], []) ∧
        ['O'] ++ ['K', '\r', '\n'] = ['O', 'K'] ++ (crlf ++ []) ∧
        SerialChannel.readLine ['O'] [] = (none, ['O'])) :=
  ⟨by decide, C7_amended ['O'] ['K', '\r', '\n'] [] ['O', 'K'] [] (by decide)⟩

/-- C10: for a payload that does not already end in CR-LF, both toWire
revisions put the same byte sequence on the wire through writeLine — the
CR-LF appending revision pre-terminates the line, and writeLine appends the
terminator exactly when it is absent. -/
theorem C10_writeLine_equalizes (c : Command)
    (h : endsWithCRLF c.payload = false) :
    SerialChannel.writeLine (Command.toWire c)
      = SerialChannel.writeLine (Command.toWireRaw c) := by
  simp [SerialChannel.writeLine, Command.toWire, Command.toWireRaw,
    endsWithCRLF_append, h]

/-- A concrete command whose payload is PING, with no CR-LF of its own. -/
def cmdPing : Command := ⟨['P', 'I', 'N', 'G']⟩

/-- C10 witness: the PING command goes out as the same bytes under both
toWire revisions. -/
theorem C10_witness :
    endsWithCRLF cmdPing.payload = false ∧
      SerialChannel.writeLine (Command.toWire cmdPing)
        = SerialChannel.writeLine (Command.toWireRaw cmdPing) :=
  ⟨by decide, C10_writeLine_equalizes cmdPing (by decide)⟩

/-- An RPCManager that connected successfully: all three channels open. -/
def rpcConnected : RPCState := ⟨[Device.PG, Device.PSU, Device.Pump], true⟩

/-- Environment in which every POSIX write succeeds. -/
def okAll : Device → Bool := fun _ => true

/-- The command the repository test suite dispatches (payload TEST123). -/
def cmdTest : Command := ⟨['T', 'E', 'S', 'T', '1', '2', '3']⟩

/-- C2: dispatching a command through sendCommand on a connected manager
writes the frame and returns with the manager state bit-for-bit unchanged —
no in-flight entry of any kind is recorded (the source TODO skips it and the
declared awaitResponse has no definition in the tree), so nothing can later
match, time out, cancel or fail the dispatched command. -/
theorem C2_code_bug :
    RPCManager.sendCommand rpcConnected okAll Command.toWire Device.PG cmdTest
      = (rpcConnected,
          SendResult.sent (['T', 'E', 'S', 'T', '1', '2', '3'] ++ crlf)) := by
  decide

/-- Length of the frame writeLine emits, given a bounded input line. -/
theorem writeLine_length (l : List Char) (h : l.length ≤ 256) :
    (SerialChannel.writeLine l).length ≤ 258 ∧
      (endsWithCRLF l = true → (SerialChannel.writeLine l).length ≤ 256) := by
  unfold SerialChannel.writeLine
  by_cases he : endsWithCRLF l
  · simp only [he, if_true]
    exact ⟨by omega, fun _ => h⟩
  · simp only [he, if_false, Bool.false_eq_true]
    refine ⟨?_, fun hcontra => absurd hcontra (by simp [he])⟩
    simp [crlf]
    omega

/-- The frame a successful sendCommand writes is exactly the writeLine
framing of the serialized command. -/
theorem sendCommand_sent_frame (s : RPCState) (w : Device → Bool)
    (tw : Command → List Char) (dev : Device) (cmd : Command) (fr : List Char)
    (hfr : (RPCManager.sendCommand s w tw dev cmd).2 = SendResult.sent fr) :
    fr = SerialChannel.writeLine (tw cmd) := by
  unfold RPCManager.sendCommand at hfr
  split at hfr
  · simp at hfr
  · split at hfr
    · simp at hfr
    · split at hfr
      · simp at hfr
      · split at hfr
        · simp at hfr
        · simp only [Option.some.injEq, SendResult.sent.injEq] at hfr
          exact hfr.symm

/-- C8 amended: when the serialized command is at most 256 bytes the
assertion in sendCommand cannot fire, and the frame actually written is at
most 258 bytes — the serialized bytes plus the CR-LF that writeLine appends
when absent; it is at most 256 bytes exactly when the serialization already
carries its CR-LF terminator, as with the toWire revision that appends it. -/
theorem C8_amended (s : RPCState) (w : Device → Bool)
    (tw : Command → List Char) (dev : Device) (cmd : Command) (fr : List Char)
    (h : (tw cmd).length ≤ 256)
    (hfr : (RPCManager.sendCommand s w tw dev cmd).2 = SendResult.sent fr) :
    (RPCManager.sendCommand s w tw dev cmd).2 ≠ SendResult.assertFail ∧
      fr.length ≤ 258 ∧
      (endsWithCRLF (tw cmd) = true → fr.length ≤ 256) := by
  have hfr2 := sendCommand_sent_frame s w tw dev cmd fr hfr
  refine ⟨?_, ?_, ?_⟩
  · rw [hfr]
    simp
  · rw [hfr2]
    exact (writeLine_length (tw cmd) h).1
  · rw [hfr2]
    exact (writeLine_length (tw cmd) h).2

/-- C8 witness: sending the PING command on a connected manager with the
CR-LF appending toWire stays within every bound. -/
theorem C8_witness :
    (Command.toWire cmdPing).length ≤ 256 ∧
      (RPCManager.sendCommand rpcConnected okAll Command.toWire Device.PG
            cmdPing).2
        = SendResult.sent (['P', 'I', 'N', 'G'] ++ crlf) ∧
      ((RPCManager.sendCommand rpcConnected okAll Command.toWire Device.PG
              cmdPing).2
          ≠ SendResult.assertFail ∧
        (['P', 'I', 'N', 'G'] ++ crlf).length ≤ 258 ∧
        (endsWithCRLF (Command.toWire cmdPing) = true →
          (['P', 'I', 'N', 'G'] ++ crlf).length ≤ 256)) :=
  ⟨by decide, by decide,
    C8_amended rpcConnected okAll Command.toWire Device.PG cmdPing
      (['P', 'I', 'N', 'G'] ++ crlf) (by decide) (by decide)⟩

/-- A 255 byte payload of capital A, within the 256 byte payload bound. -/
def payloadA : List Char := List.replicate 255 'A'

/-- The oversized-frame command built from that payload. -/
def cmdA : Command := ⟨payloadA⟩

/-- C8 counterexample: under the raw toWire revision, a 255 byte payload
serializes to 255 bytes, so the assertion passes, yet writeLine appends
CR-LF and the frame on the wire is 257 bytes — longer than 256. -/
theorem C8_counterexample :
    (Command.toWireRaw cmdA).length ≤ 256 ∧
      (RPCManager.sendCommand rpcConnected okAll Command.toWireRaw Device.PG
            cmdA).2
        = SendResult.sent (payloadA ++ crlf) ∧
      256 < (payloadA ++ crlf).length := by
  have hlen : payloadA.length = 255 := by
    rw [payloadA, List.length_replicate]
  have hnono : '\n' ∉ payloadA := by
    intro hmem
    rw [payloadA, List.mem_replicate] at hmem
    exact absurd hmem.2 (by decide)
  have hends : endsWithCRLF payloadA = false := endsWithCRLF_eq_false _ hnono
  refine ⟨?_, ?_, ?_⟩
  · simp [Command.toWireRaw, cmdA, hlen]
  · have htw : Command.toWireRaw cmdA = payloadA := rfl
    rw [RPCManager.sendCommand, htw]
    rw [if_neg (by simp [rpcConnected]), if_neg (by simp [rpcConnected]),
      if_neg (by simp [hlen]), if_neg (by simp [okAll])]
    simp [SerialChannel.writeLine, hends]
  · simp [hlen, crlf]

end Milo
